import Mathlib

/-!
Verification of the NDMI-Calculator pipeline.

This file gives a shallow embedding of the two scripts of the repository,
`src/ndmi_calculator.py` and `src/NDMI.py`, and proves the specified
properties about it.  Raster bands are grids of masked rational pixels
(`none` models a masked/no-data or non-finite floating sample), the STAC
catalog, raster I/O, clipping and reprojection libraries are explicit
collaborators passed in as functions, and each Python function becomes a
Lean definition that mirrors its control flow.  Effects (searches issued,
lines printed, files written) are returned as data.
-/

namespace NDMICalc

/-- A pixel of a masked raster band: `none` models a masked (no-data) sample
or a non-finite floating value (NaN); `some q` a finite reflectance value.
`rioxarray.open_rasterio(uri, masked=True)` turns no-data samples into NaN. -/
abbrev Pixel := Option ℚ

/-- A 2-D raster grid of masked pixels.  The singleton band dimension that
`calculate_ndmi` squeezes away at the end is kept squeezed throughout. -/
abbrev NdmiArray := List (List Pixel)

/-- A raster together with its coordinate reference system, as carried by a
rioxarray DataArray. -/
structure Raster where
  crs : String
  grid : NdmiArray
deriving DecidableEq

/-- A STAC item as `calculate_ndmi` and `main` use it: the id, the asset
table mapping a band key to its href, and the acquisition datetime string
from the item properties. -/
structure Item where
  id : String
  assets : List (String × String)
  datetime : String
deriving DecidableEq

/-- Membership test mirroring the Python containment check on the asset
dictionary of an item. -/
def Item.hasAsset (item : Item) (k : String) : Bool :=
  (item.assets.lookup k).isSome

/-- Href lookup mirroring the indexing of the asset dictionary; meaningful
once `hasAsset` holds for the key. -/
def Item.assetHref (item : Item) (k : String) : String :=
  (item.assets.lookup k).getD ""

/-- Elementwise NDMI on masked pixels, the line
`ndmi = (nir_clip - red_clip) / (nir_clip + red_clip)`.
A masked operand propagates.  A zero denominator makes the floating
division non-finite (NaN in the non-negative reflectance case 0/0),
modelled as the marker `none`; numpy emits a warning there, never an
exception, and this function is total. -/
def ndmiPixel (nir swir : Pixel) : Pixel :=
  match nir, swir with
  | some n, some s => if n + s = 0 then none else some ((n - s) / (n + s))
  | _, _ => none

/-- Elementwise NDMI over two aligned grids. -/
def ndmiGrid (nir swir : NdmiArray) : NdmiArray :=
  List.zipWith (fun rn rs => List.zipWith ndmiPixel rn rs) nir swir

/-- The raster-level operations `calculate_ndmi` performs, in order: opening
a band by href, clipping a band with the parcel geometry (recorded with the
CRS the GeoDataFrame was reprojected to), and `reproject_match`. -/
inductive BandOp where
  | openRaster (uri : String)
  | clipBand (band : String) (gdfCrs : String)
  | reprojectMatch (fromCrs toCrs : String)
deriving DecidableEq

/-- The library collaborators that `calculate_ndmi` delegates to: remote
raster opening, clipping by the parcel geometry, and `reproject_match`. -/
structure RasterEnv where
  fetch : String → Raster
  clip : Raster → Raster
  reprojectMatch : Raster → Raster → Raster

/-- The SWIR band (called `red` / `red_clip` in the script) opened from the
swir16 asset href and clipped to the parcel geometry. -/
def clippedSwir (env : RasterEnv) (item : Item) : Raster :=
  env.clip (env.fetch (item.assetHref "swir16"))

/-- The NIR band opened from the nir08 asset href and clipped to the parcel
geometry. -/
def clippedNir (env : RasterEnv) (item : Item) : Raster :=
  env.clip (env.fetch (item.assetHref "nir08"))

/-- The clipped SWIR band after the conditional alignment step: it is
reprojected onto the clipped NIR band exactly when the two CRSs differ,
else passed through unchanged. -/
def alignedSwir (env : RasterEnv) (item : Item) : Raster :=
  if (clippedSwir env item).crs ≠ (clippedNir env item).crs then
    env.reprojectMatch (clippedSwir env item) (clippedNir env item)
  else
    clippedSwir env item

/-- The trace of raster operations of a successful `calculate_ndmi` run:
both bands opened, then both clipped (the GeoDataFrame having been
reprojected to the CRS of the SWIR raster), then `reproject_match` exactly
when the clipped CRSs differ. -/
def ndmiTrace (env : RasterEnv) (item : Item) : List BandOp :=
  [BandOp.openRaster (item.assetHref "swir16"),
   BandOp.openRaster (item.assetHref "nir08"),
   BandOp.clipBand "swir16" (env.fetch (item.assetHref "swir16")).crs,
   BandOp.clipBand "nir08" (env.fetch (item.assetHref "swir16")).crs] ++
  (if (clippedSwir env item).crs ≠ (clippedNir env item).crs then
    [BandOp.reprojectMatch (clippedSwir env item).crs (clippedNir env item).crs]
  else [])

/-- Embedding of `calculate_ndmi(item, gdf)` of `src/ndmi_calculator.py`
(the corresponding lines of `src/NDMI.py` are the same but for the
GeoDataFrame reprojection before the clip).  The missing-asset check comes
first and raises `ValueError` before any raster is opened; otherwise the
result is the NDMI of the clipped, CRS-aligned bands.  The outcome is
returned together with the trace of raster operations performed, which is
empty on the error path. -/
def calculate_ndmi (env : RasterEnv) (item : Item) :
    Except String Raster × List BandOp :=
  if !(item.hasAsset "swir16") || !(item.hasAsset "nir08") then
    (Except.error ("Item " ++ item.id ++ " missing necessary assets (SWIR and NIR)."), [])
  else
    (Except.ok ⟨(clippedNir env item).crs,
      ndmiGrid (clippedNir env item).grid (alignedSwir env item).grid⟩,
     ndmiTrace env item)

/-- A STAC search request as `load_and_search_data` builds it: the
collection, the bounding box, the datetime range, and the cloud-cover
query, an operator string paired with the ceiling, standing for the
mapping from eo cloud cover to the less-than bound. -/
structure SearchQuery where
  collection : String
  bbox : ℚ × ℚ × ℚ × ℚ
  startDate : String
  endDate : String
  cloudQuery : String × ℚ
deriving DecidableEq

/-- The search request built from the arguments of `load_and_search_data`. -/
def searchQueryOf (collection : String) (bbox : ℚ × ℚ × ℚ × ℚ)
    (startDate endDate : String) (cloudCover : ℚ) : SearchQuery :=
  ⟨collection, bbox, startDate, endDate, ("lt", cloudCover)⟩

/-- The Python default of the cloud-cover parameter; both call sites in
`main` omit the argument, so both searches use this ceiling. -/
def defaultCloudCover : ℚ := 50

/-- Embedding of `load_and_search_data`: builds the search against the
client (here the abstract `search` function) and returns the item set. -/
def load_and_search_data (search : SearchQuery → List Item) (collection : String)
    (bbox : ℚ × ℚ × ℚ × ℚ) (startDate endDate : String) (cloudCover : ℚ) :
    List Item :=
  search (searchQueryOf collection bbox startDate endDate cloudCover)

/-- The fixed collection id of `main`. -/
def collectionId : String := "sentinel-2-l2a"

/-- The hard start date of the fallback search in `main` of
`src/ndmi_calculator.py`, the beginning of the Sentinel-2 archive. -/
def fallbackStartDate : String := "2015-06-23"

/-- The characters before the first occurrence of the letter T, the first
component of the Python split of a string at T. -/
def takeUntilT : List Char → List Char
  | [] => []
  | c :: cs => if c = 'T' then [] else c :: takeUntilT cs

/-- The acquisition date label of an item, the datetime property split at
the letter T, first component. -/
def itemDate (item : Item) : String :=
  ⟨takeUntilT item.datetime.data⟩

/-- Embedding of `os.path.join(dir, file)` for the relative file names used
here: the separator is inserted unless the directory is empty or already
ends with one. -/
def pathJoin (dir file : String) : String :=
  match dir.data.getLast? with
  | none => dir ++ file
  | some c => if c = '/' then dir ++ file else dir ++ "/" ++ file

/-- The output file path of `plot_and_save_ndmi` of `src/ndmi_calculator.py`:
the per-date image name inside the output directory. -/
def outputFile (outputPath date : String) : String :=
  pathJoin outputPath ("ndmi_" ++ date ++ ".png")

/-- Mean of the grid values ignoring `none` pixels, the behaviour of
`ndmi.mean()`: xarray reductions skip NaN by default on floating data, and
of an all-NaN array the mean is itself NaN, modelled as `none`. -/
def nanmeanGrid (g : NdmiArray) : Option ℚ :=
  if (g.flatten.filterMap id).length = 0 then none
  else some ((g.flatten.filterMap id).sum / ((g.flatten.filterMap id).length : ℚ))

/-- The observable output of `plot_and_save_ndmi` of
`src/ndmi_calculator.py`: the mean overlaid in the title, the fixed colour
scale, and the single file written by `savefig`.  The figure geometry,
colour map name, tick stripping and title text are presentation detail not
modelled beyond the mean and the scale. -/
structure PlotResult where
  meanValue : Option ℚ
  vmin : ℚ
  vmax : ℚ
  saves : List String
deriving DecidableEq

/-- Embedding of `plot_and_save_ndmi(ndmi, output_path, date)` of
`src/ndmi_calculator.py`: computes the mean NDMI, renders on the fixed
scale from -1 to 1, and writes exactly one file named from the date. -/
def plot_and_save_ndmi (ndmi : NdmiArray) (outputPath date : String) : PlotResult :=
  ⟨nanmeanGrid ndmi, -1, 1, [outputFile outputPath date]⟩

/-- The observable output of the `plot_and_save_ndmi` variant of
`src/NDMI.py`: only the files written, since that variant computes no mean
and takes no date. -/
structure NDMIPlotResult where
  saves : List String
deriving DecidableEq

/-- Embedding of `plot_and_save_ndmi(ndmi, output_path)` of `src/NDMI.py`:
writes exactly one file at the given output path itself. -/
def NDMI_plot_and_save (ndmi : NdmiArray) (outputPath : String) : NDMIPlotResult :=
  ⟨[outputPath]⟩

/-- The external collaborators of `main`: the STAC client search, the
current UTC date string, the parcel bounding box read from the vector file
(first geometry bounds), and the runtime outcome of `calculate_ndmi` on an
item, where `Except.error e` models any exception escaping the per-item
body with message `e`. -/
structure PipelineEnv where
  search : SearchQuery → List Item
  today : String
  bounds : String → ℚ × ℚ × ℚ × ℚ
  calcNdmi : Item → Except String NdmiArray

/-- The first status line of the fallback path of `main` of
`src/ndmi_calculator.py`. -/
def noItemsMsg : String :=
  "No items found for the given date range. Searching for the latest available imagery."

/-- The terminal line of `main` of `src/ndmi_calculator.py` when the
fallback search is also empty. -/
def noDataMsg : String := "No Sentinel-2 data found."

/-- The per-item success line of `main` of `src/ndmi_calculator.py`. -/
def successMsg (item : Item) (date : String) : String :=
  "NDMI calculated and saved for item " ++ item.id ++ " on " ++ date

/-- The per-item failure line of both `main` variants: the item id and the
exception message. -/
def errorMsg (item : Item) (e : String) : String :=
  "Error processing item " ++ item.id ++ ": " ++ e

/-- The scene loop of `main` of `src/ndmi_calculator.py`: every item is
attempted; on success the date-named file is written and the success line
printed, on any exception the failure line is printed and the loop
continues with the next item.  Returns the printed lines and the written
file paths, in order. -/
def processItems (env : PipelineEnv) (outputPath : String) :
    List Item → List String × List String
  | [] => ([], [])
  | item :: rest =>
    match env.calcNdmi item with
    | Except.ok _ =>
      (successMsg item (itemDate item) :: (processItems env outputPath rest).1,
       outputFile outputPath (itemDate item) :: (processItems env outputPath rest).2)
    | Except.error e =>
      (errorMsg item e :: (processItems env outputPath rest).1,
       (processItems env outputPath rest).2)

/-- The observable effects of one `main` run: the search queries issued,
the lines printed, and the file paths written, each in order. -/
structure RunResult where
  queries : List SearchQuery
  printed : List String
  saved : List String
deriving DecidableEq

/-- Embedding of `main(geojson_path, start_date, end_date, output_path)` of
`src/ndmi_calculator.py`: the primary search over the given range; if its
item set is empty, one fallback search over the full archive up to today;
if that is also empty, the no-data line and a clean return; otherwise the
scene loop over the items found. -/
def mainRun (env : PipelineEnv) (geojsonPath startDate endDate outputPath : String) :
    RunResult :=
  let bbox := env.bounds geojsonPath
  let q1 := searchQueryOf collectionId bbox startDate endDate defaultCloudCover
  let items := load_and_search_data env.search collectionId bbox startDate endDate
    defaultCloudCover
  if items.isEmpty then
    let q2 := searchQueryOf collectionId bbox fallbackStartDate env.today defaultCloudCover
    let items2 := load_and_search_data env.search collectionId bbox fallbackStartDate
      env.today defaultCloudCover
    if items2.isEmpty then
      ⟨[q1, q2], [noItemsMsg, noDataMsg], []⟩
    else
      ⟨[q1, q2], noItemsMsg :: (processItems env outputPath items2).1,
       (processItems env outputPath items2).2⟩
  else
    ⟨[q1], (processItems env outputPath items).1, (processItems env outputPath items).2⟩

/-- The no-items line of `main` of `src/NDMI.py`. -/
def NDMI_noItemsMsg : String := "No items found for the given date range."

/-- The per-item success line of `main` of `src/NDMI.py`. -/
def NDMI_successMsg (item : Item) : String :=
  "NDMI calculated and saved for item " ++ item.id

/-- The scene loop of `main` of `src/NDMI.py`: like the other variant it
prints the failure line and continues on an exception, but it breaks after
the first success, and its plot step writes to the output path itself. -/
def NDMI_processItems (env : PipelineEnv) (outputPath : String) :
    List Item → List String × List String
  | [] => ([], [])
  | item :: rest =>
    match env.calcNdmi item with
    | Except.ok _ => ([NDMI_successMsg item], [outputPath])
    | Except.error e =>
      (errorMsg item e :: (NDMI_processItems env outputPath rest).1,
       (NDMI_processItems env outputPath rest).2)

/-- Embedding of `main` of `src/NDMI.py`: one search only; on an empty item
set it prints the no-items line and returns, performing no fallback. -/
def NDMI_mainRun (env : PipelineEnv) (geojsonPath startDate endDate outputPath : String) :
    RunResult :=
  let bbox := env.bounds geojsonPath
  let q1 := searchQueryOf collectionId bbox startDate endDate defaultCloudCover
  let items := load_and_search_data env.search collectionId bbox startDate endDate
    defaultCloudCover
  if items.isEmpty then
    ⟨[q1], [NDMI_noItemsMsg], []⟩
  else
    ⟨[q1], (NDMI_processItems env outputPath items).1,
     (NDMI_processItems env outputPath items).2⟩

/-- The parsed command line of `src/ndmi_calculator.py`: the optional
config path and the four optional discrete options. -/
structure CliArgs where
  config : Option String
  geojson_path : Option String
  start_date : Option String
  end_date : Option String
  output_path : Option String
deriving DecidableEq

/-- A parsed config JSON, each key optional as `config.get` returns. -/
structure ConfigFile where
  geojson_path : Option String
  start_date : Option String
  end_date : Option String
  output_path : Option String
deriving DecidableEq

/-- The hardcoded parcel path used by the entry point of
`src/ndmi_calculator.py` when no config file is given. -/
def defaultGeojsonPath : String :=
  "/home/nandanaa/Projects/NDMI-Calculator/data/farm_p.geojson"

/-- The hardcoded start date of the no-config branch. -/
def defaultStartDate : String := "2024-07-16"

/-- The hardcoded end date of the no-config branch. -/
def defaultEndDate : String := "2024-08-02"

/-- The hardcoded output directory of the no-config branch. -/
def defaultOutputPath : String := "/home/nandanaa/Projects/NDMI-Calculator/Output/"

/-- Embedding of the argument resolution of the entry point of
`src/ndmi_calculator.py`: with a config path the four values are read from
the config file; without one the hardcoded defaults are used and the
discrete options play no part.  Returns parcel path, start date, end date
and output directory as the entry point passes them to `main`. -/
def resolveRunConfig (readConfig : String → ConfigFile) (args : CliArgs) :
    Option String × Option String × Option String × Option String :=
  match args.config with
  | some p =>
    ((readConfig p).geojson_path, (readConfig p).start_date,
     (readConfig p).end_date, (readConfig p).output_path)
  | none =>
    (some defaultGeojsonPath, some defaultStartDate, some defaultEndDate,
     some defaultOutputPath)

/-- A constant grid of h rows and w columns of one finite pixel value, the
shape of the constant-band test case of the spec. -/
def constGrid (h w : Nat) (v : ℚ) : NdmiArray :=
  List.replicate h (List.replicate w (some v))

/-! Test fixtures: a concrete item with both band assets over a concrete
raster environment with constant bands, an item missing the NIR asset, and
concrete pipeline environments, used by the witness instances below. -/

/-- A concrete item carrying both required band assets. -/
def wItem : Item :=
  ⟨"S2A_43PFS_20240720", [("swir16", "s.tif"), ("nir08", "n.tif")],
   "2024-07-20T05:30:00Z"⟩

/-- A concrete item whose assets lack the nir08 band. -/
def wItemNoNir : Item :=
  ⟨"S2B_43PFS_20240721", [("swir16", "s.tif")], "2024-07-21T05:30:00Z"⟩

/-- A concrete raster environment: the NIR href resolves to a constant-200
band, every other href to a constant-100 band, both in the same CRS; clip
is the identity on these small grids. -/
def wEnv : RasterEnv :=
  ⟨fun u => if u = "n.tif" then ⟨"EPSG:32643", constGrid 2 2 200⟩
            else ⟨"EPSG:32643", constGrid 2 2 100⟩,
   fun r => r,
   fun r _ => r⟩

/-! Helper lemmas about grids of replicated pixels. -/

/-- Zipping two equal-length replicated lists replicates the combined
value. -/
theorem zipWith_replicate_same {α β γ : Type} (f : α → β → γ) (a : α) (b : β) :
    ∀ n, List.zipWith f (List.replicate n a) (List.replicate n b) =
      List.replicate n (f a b) := by
  intro n
  induction n with
  | zero => rfl
  | succ k ih => simp [List.replicate_succ, ih]

/-- The NDMI of two constant grids with a nonzero denominator is the
constant grid of the pixel formula value. -/
theorem ndmiGrid_constGrid (h w : Nat) (n s : ℚ) (hns : n + s ≠ 0) :
    ndmiGrid (constGrid h w n) (constGrid h w s) =
      constGrid h w ((n - s) / (n + s)) := by
  unfold ndmiGrid constGrid
  rw [zipWith_replicate_same, zipWith_replicate_same]
  simp [ndmiPixel, hns]

/-- C1: for an item with both required band assets, `calculate_ndmi`
returns the elementwise normalized difference of the clipped, CRS-aligned
NIR and SWIR grids, and when the clipped bands are constant with NIR 200
and SWIR 100 everywhere, every pixel of the result is 1/3. -/
theorem ndmi_formula_and_constant_case (env : RasterEnv) (item : Item) (h w : Nat)
    (hs : item.hasAsset "swir16" = true) (hn : item.hasAsset "nir08" = true)
    (hcrs : (clippedSwir env item).crs = (clippedNir env item).crs)
    (hng : (clippedNir env item).grid = constGrid h w 200)
    (hsg : (clippedSwir env item).grid = constGrid h w 100) :
    (calculate_ndmi env item).1 =
      Except.ok ⟨(clippedNir env item).crs,
        ndmiGrid (clippedNir env item).grid (alignedSwir env item).grid⟩
    ∧ ndmiGrid (clippedNir env item).grid (alignedSwir env item).grid =
      constGrid h w (1 / 3) := by
  have halign : alignedSwir env item = clippedSwir env item := by
    unfold alignedSwir
    simp [hcrs]
  constructor
  · unfold calculate_ndmi
    simp [hs, hn]
  · rw [halign, hng, hsg, ndmiGrid_constGrid h w 200 100 (by norm_num)]
    norm_num

/-- Witness for C1 at the concrete constant-band fixture. -/
theorem ndmi_formula_and_constant_case_witness :
    (wItem.hasAsset "swir16" = true ∧ wItem.hasAsset "nir08" = true ∧
     (clippedSwir wEnv wItem).crs = (clippedNir wEnv wItem).crs ∧
     (clippedNir wEnv wItem).grid = constGrid 2 2 200 ∧
     (clippedSwir wEnv wItem).grid = constGrid 2 2 100)
    ∧ ((calculate_ndmi wEnv wItem).1 =
        Except.ok ⟨(clippedNir wEnv wItem).crs,
          ndmiGrid (clippedNir wEnv wItem).grid (alignedSwir wEnv wItem).grid⟩
      ∧ ndmiGrid (clippedNir wEnv wItem).grid (alignedSwir wEnv wItem).grid =
        constGrid 2 2 (1 / 3)) :=
  ⟨⟨by decide, by decide, by decide, by decide, by decide⟩,
   ndmi_formula_and_constant_case wEnv wItem 2 2 (by decide) (by decide)
     (by decide) (by decide) (by decide)⟩

/-- C2: the NDMI pixel formula is total over non-negative finite operands:
where the denominator is nonzero the value lies in the interval from -1 to
1, and where it is zero the result is the not-a-number marker, never an
exception. -/
theorem ndmi_division_safety (n s : ℚ) (hn : 0 ≤ n) (hs : 0 ≤ s) :
    (n + s ≠ 0 → ∃ v, ndmiPixel (some n) (some s) = some v ∧ -1 ≤ v ∧ v ≤ 1)
    ∧ (n + s = 0 → ndmiPixel (some n) (some s) = none) := by
  constructor
  · intro hne
    have hpos : 0 < n + s := lt_of_le_of_ne (by linarith) (Ne.symm hne)
    refine ⟨(n - s) / (n + s), by simp [ndmiPixel, hne], ?_, ?_⟩
    · rw [le_div_iff₀ hpos]
      linarith
    · rw [div_le_one hpos]
      linarith
  · intro h0
    simp [ndmiPixel, h0]

/-- Witness for C2 at the constant reflectance pair of the spec. -/
theorem ndmi_division_safety_witness :
    ((0 : ℚ) ≤ 200 ∧ (0 : ℚ) ≤ 100)
    ∧ (((200 : ℚ) + 100 ≠ 0 →
        ∃ v, ndmiPixel (some 200) (some 100) = some v ∧ -1 ≤ v ∧ v ≤ 1)
      ∧ ((200 : ℚ) + 100 = 0 → ndmiPixel (some 200) (some 100) = none)) :=
  ⟨⟨by norm_num, by norm_num⟩,
   ndmi_division_safety 200 100 (by norm_num) (by norm_num)⟩

/-- C3: on an item lacking the swir16 or the nir08 asset, `calculate_ndmi`
returns the ValueError whose message names the item id and the required
SWIR and NIR bands, and performs no raster operation at all, in particular
opening no band URI. -/
theorem missing_asset_error (env : RasterEnv) (item : Item)
    (h : item.hasAsset "swir16" = false ∨ item.hasAsset "nir08" = false) :
    calculate_ndmi env item =
      (Except.error ("Item " ++ item.id ++ " missing necessary assets (SWIR and NIR)."),
       [])
    ∧ ∀ u, BandOp.openRaster u ∉ (calculate_ndmi env item).2 := by
  have hcond : (!(item.hasAsset "swir16") || !(item.hasAsset "nir08")) = true := by
    rcases h with h | h <;> simp [h]
  constructor
  · unfold calculate_ndmi
    simp [hcond]
  · intro u
    unfold calculate_ndmi
    simp [hcond]

/-- Witness for C3 at the concrete item missing the NIR asset. -/
theorem missing_asset_error_witness :
    (wItemNoNir.hasAsset "swir16" = false ∨ wItemNoNir.hasAsset "nir08" = false)
    ∧ (calculate_ndmi wEnv wItemNoNir =
        (Except.error ("Item " ++ wItemNoNir.id ++
          " missing necessary assets (SWIR and NIR)."), [])
      ∧ ∀ u, BandOp.openRaster u ∉ (calculate_ndmi wEnv wItemNoNir).2) :=
  ⟨Or.inr (by decide),
   missing_asset_error wEnv wItemNoNir (Or.inr (by decide))⟩

/-- C7: with both assets present, both bands are clipped before any
band-to-band reprojection, and the reproject-match step runs exactly when
the clipped CRSs differ: with equal CRSs the trace ends at the two clips
and the formula receives the clipped SWIR band unchanged, with different
CRSs one reproject-match follows the two clips and the formula receives
its result. -/
theorem clip_before_reproject (env : RasterEnv) (item : Item)
    (hs : item.hasAsset "swir16" = true) (hn : item.hasAsset "nir08" = true) :
    ((clippedSwir env item).crs = (clippedNir env item).crs →
      (calculate_ndmi env item).2 =
        [BandOp.openRaster (item.assetHref "swir16"),
         BandOp.openRaster (item.assetHref "nir08"),
         BandOp.clipBand "swir16" (env.fetch (item.assetHref "swir16")).crs,
         BandOp.clipBand "nir08" (env.fetch (item.assetHref "swir16")).crs]
      ∧ alignedSwir env item = clippedSwir env item
      ∧ (calculate_ndmi env item).1 =
          Except.ok ⟨(clippedNir env item).crs,
            ndmiGrid (clippedNir env item).grid (clippedSwir env item).grid⟩)
    ∧ ((clippedSwir env item).crs ≠ (clippedNir env item).crs →
      (calculate_ndmi env item).2 =
        [BandOp.openRaster (item.assetHref "swir16"),
         BandOp.openRaster (item.assetHref "nir08"),
         BandOp.clipBand "swir16" (env.fetch (item.assetHref "swir16")).crs,
         BandOp.clipBand "nir08" (env.fetch (item.assetHref "swir16")).crs,
         BandOp.reprojectMatch (clippedSwir env item).crs (clippedNir env item).crs]
      ∧ alignedSwir env item =
          env.reprojectMatch (clippedSwir env item) (clippedNir env item)) := by
  constructor
  · intro hcrs
    refine ⟨?_, ?_, ?_⟩
    · unfold calculate_ndmi ndmiTrace
      simp [hs, hn, hcrs]
    · unfold alignedSwir
      simp [hcrs]
    · have halign : alignedSwir env item = clippedSwir env item := by
        unfold alignedSwir
        simp [hcrs]
      unfold calculate_ndmi
      simp [hs, hn, halign]
  · intro hcrs
    constructor
    · unfold calculate_ndmi ndmiTrace
      simp [hs, hn, hcrs]
    · unfold alignedSwir
      simp [hcrs]

/-- Witness for C7 at the equal-CRS fixture. -/
theorem clip_before_reproject_witness :
    (wItem.hasAsset "swir16" = true ∧ wItem.hasAsset "nir08" = true)
    ∧ (((clippedSwir wEnv wItem).crs = (clippedNir wEnv wItem).crs →
        (calculate_ndmi wEnv wItem).2 =
          [BandOp.openRaster (wItem.assetHref "swir16"),
           BandOp.openRaster (wItem.assetHref "nir08"),
           BandOp.clipBand "swir16" (wEnv.fetch (wItem.assetHref "swir16")).crs,
           BandOp.clipBand "nir08" (wEnv.fetch (wItem.assetHref "swir16")).crs]
        ∧ alignedSwir wEnv wItem = clippedSwir wEnv wItem
        ∧ (calculate_ndmi wEnv wItem).1 =
            Except.ok ⟨(clippedNir wEnv wItem).crs,
              ndmiGrid (clippedNir wEnv wItem).grid (clippedSwir wEnv wItem).grid⟩)
      ∧ ((clippedSwir wEnv wItem).crs ≠ (clippedNir wEnv wItem).crs →
        (calculate_ndmi wEnv wItem).2 =
          [BandOp.openRaster (wItem.assetHref "swir16"),
           BandOp.openRaster (wItem.assetHref "nir08"),
           BandOp.clipBand "swir16" (wEnv.fetch (wItem.assetHref "swir16")).crs,
           BandOp.clipBand "nir08" (wEnv.fetch (wItem.assetHref "swir16")).crs,
           BandOp.reprojectMatch (clippedSwir wEnv wItem).crs (clippedNir wEnv wItem).crs]
        ∧ alignedSwir wEnv wItem =
            wEnv.reprojectMatch (clippedSwir wEnv wItem) (clippedNir wEnv wItem))) :=
  ⟨⟨by decide, by decide⟩,
   clip_before_reproject wEnv wItem (by decide) (by decide)⟩

/-- A concrete pipeline environment whose catalog search always returns the
empty item set. -/
def cexEnv : PipelineEnv :=
  ⟨fun _ => [], "2025-10-12", fun _ => (0, 0, 1, 1),
   fun _ => Except.error "unreachable"⟩

/-- C4 counterexample: the `main` of `src/NDMI.py`, one of the two cited
code locations, performs no fallback search on an empty primary result:
the run issues exactly one query, where the claim requires a second,
widened one. -/
theorem no_fallback_in_NDMI_main :
    (NDMI_mainRun cexEnv "farm.geojson" "2024-07-16" "2024-08-02" "out").queries.length = 1
    ∧ ¬ (NDMI_mainRun cexEnv "farm.geojson" "2024-07-16" "2024-08-02"
        "out").queries.length = 2 := by
  decide

/-- C4 amended: in `src/ndmi_calculator.py`, an empty primary search
triggers exactly one fallback search widening the range to the archive
start through the current date, and an empty fallback ends the run cleanly
with the no-data line, nothing written; the `main` of `src/NDMI.py`
instead performs no fallback and returns cleanly after its no-items line. -/
theorem fallback_search_behavior (env : PipelineEnv) (g s e o : String)
    (h1 : env.search (searchQueryOf collectionId (env.bounds g) s e
      defaultCloudCover) = []) :
    (mainRun env g s e o).queries =
      [searchQueryOf collectionId (env.bounds g) s e defaultCloudCover,
       searchQueryOf collectionId (env.bounds g) fallbackStartDate env.today
         defaultCloudCover]
    ∧ (env.search (searchQueryOf collectionId (env.bounds g) fallbackStartDate
        env.today defaultCloudCover) = [] →
      (mainRun env g s e o).printed = [noItemsMsg, noDataMsg]
      ∧ (mainRun env g s e o).saved = [])
    ∧ (NDMI_mainRun env g s e o).queries =
      [searchQueryOf collectionId (env.bounds g) s e defaultCloudCover]
    ∧ (NDMI_mainRun env g s e o).printed = [NDMI_noItemsMsg]
    ∧ (NDMI_mainRun env g s e o).saved = [] := by
  by_cases h2 : env.search (searchQueryOf collectionId (env.bounds g)
      fallbackStartDate env.today defaultCloudCover) = []
  · simp [mainRun, NDMI_mainRun, load_and_search_data, List.isEmpty_iff, h1, h2]
  · simp [mainRun, NDMI_mainRun, load_and_search_data, List.isEmpty_iff, h1, h2]

/-- Witness for C4 at the always-empty catalog environment. -/
theorem fallback_search_behavior_witness :
    cexEnv.search (searchQueryOf collectionId (cexEnv.bounds "farm.geojson")
      "2024-07-16" "2024-08-02" defaultCloudCover) = []
    ∧ ((mainRun cexEnv "farm.geojson" "2024-07-16" "2024-08-02" "out").queries =
        [searchQueryOf collectionId (cexEnv.bounds "farm.geojson") "2024-07-16"
          "2024-08-02" defaultCloudCover,
         searchQueryOf collectionId (cexEnv.bounds "farm.geojson") fallbackStartDate
          cexEnv.today defaultCloudCover]
      ∧ (cexEnv.search (searchQueryOf collectionId (cexEnv.bounds "farm.geojson")
          fallbackStartDate cexEnv.today defaultCloudCover) = [] →
        (mainRun cexEnv "farm.geojson" "2024-07-16" "2024-08-02" "out").printed =
          [noItemsMsg, noDataMsg]
        ∧ (mainRun cexEnv "farm.geojson" "2024-07-16" "2024-08-02" "out").saved = [])
      ∧ (NDMI_mainRun cexEnv "farm.geojson" "2024-07-16" "2024-08-02" "out").queries =
        [searchQueryOf collectionId (cexEnv.bounds "farm.geojson") "2024-07-16"
          "2024-08-02" defaultCloudCover]
      ∧ (NDMI_mainRun cexEnv "farm.geojson" "2024-07-16" "2024-08-02" "out").printed =
        [NDMI_noItemsMsg]
      ∧ (NDMI_mainRun cexEnv "farm.geojson" "2024-07-16" "2024-08-02" "out").saved = []) :=
  ⟨rfl, fallback_search_behavior cexEnv "farm.geojson" "2024-07-16" "2024-08-02"
    "out" rfl⟩

/-! Equation lemmas for the scene loop. -/

/-- One successful step of the scene loop. -/
theorem processItems_cons_ok (env : PipelineEnv) (o : String) (item : Item)
    (rest : List Item) (a : NdmiArray) (h : env.calcNdmi item = Except.ok a) :
    processItems env o (item :: rest) =
      (successMsg item (itemDate item) :: (processItems env o rest).1,
       outputFile o (itemDate item) :: (processItems env o rest).2) := by
  simp [processItems, h]

/-- One failing step of the scene loop: the failure line, and the rest of
the items processed as if the failure had not happened. -/
theorem processItems_cons_err (env : PipelineEnv) (o : String) (item : Item)
    (rest : List Item) (e : String) (h : env.calcNdmi item = Except.error e) :
    processItems env o (item :: rest) =
      (errorMsg item e :: (processItems env o rest).1,
       (processItems env o rest).2) := by
  simp [processItems, h]

/-- A concrete two-scene environment: the search returns the failing item
then the fixture item, the first item raises, the second succeeds. -/
def twoSceneEnv : PipelineEnv :=
  ⟨fun _ => [wItemNoNir, wItem], "2025-10-12", fun _ => (0, 0, 1, 1),
   fun it => if it.id = wItem.id then Except.ok (constGrid 2 2 (1 / 3))
             else Except.error "boom"⟩

/-- C5: per-item isolation of the orchestration loop of
`src/ndmi_calculator.py`: when the first of two scenes raises, its failure
line is printed and the second scene is still processed and produces its
output file; in general a failing scene contributes only its failure line
and leaves the processing of the remaining scenes unchanged. -/
theorem per_item_isolation (env : PipelineEnv) (g s e o : String)
    (i1 i2 : Item) (err : String) (a : NdmiArray)
    (hsearch : env.search (searchQueryOf collectionId (env.bounds g) s e
      defaultCloudCover) = [i1, i2])
    (h1 : env.calcNdmi i1 = Except.error err)
    (h2 : env.calcNdmi i2 = Except.ok a) :
    ((mainRun env g s e o).printed =
      [errorMsg i1 err, successMsg i2 (itemDate i2)]
     ∧ (mainRun env g s e o).saved = [outputFile o (itemDate i2)])
    ∧ ∀ (i : Item) (rest : List Item) (msg : String),
        env.calcNdmi i = Except.error msg →
        processItems env o (i :: rest) =
          (errorMsg i msg :: (processItems env o rest).1,
           (processItems env o rest).2) := by
  constructor
  · have hp : processItems env o [i1, i2] =
        ([errorMsg i1 err, successMsg i2 (itemDate i2)],
         [outputFile o (itemDate i2)]) := by
      simp [processItems, h1, h2]
    constructor <;> simp [mainRun, load_and_search_data, hsearch, hp]
  · intro i rest msg hmsg
    exact processItems_cons_err env o i rest msg hmsg

/-- Witness for C5 at the concrete two-scene environment. -/
theorem per_item_isolation_witness :
    (twoSceneEnv.search (searchQueryOf collectionId (twoSceneEnv.bounds "farm.geojson")
        "2024-07-16" "2024-08-02" defaultCloudCover) = [wItemNoNir, wItem]
      ∧ twoSceneEnv.calcNdmi wItemNoNir = Except.error "boom"
      ∧ twoSceneEnv.calcNdmi wItem = Except.ok (constGrid 2 2 (1 / 3)))
    ∧ (((mainRun twoSceneEnv "farm.geojson" "2024-07-16" "2024-08-02" "out").printed =
        [errorMsg wItemNoNir "boom", successMsg wItem (itemDate wItem)]
      ∧ (mainRun twoSceneEnv "farm.geojson" "2024-07-16" "2024-08-02" "out").saved =
        [outputFile "out" (itemDate wItem)])
      ∧ ∀ (i : Item) (rest : List Item) (msg : String),
          twoSceneEnv.calcNdmi i = Except.error msg →
          processItems twoSceneEnv "out" (i :: rest) =
            (errorMsg i msg :: (processItems twoSceneEnv "out" rest).1,
             (processItems twoSceneEnv "out" rest).2)) :=
  ⟨⟨rfl, rfl, rfl⟩,
   per_item_isolation twoSceneEnv "farm.geojson" "2024-07-16" "2024-08-02" "out"
     wItemNoNir wItem "boom" (constGrid 2 2 (1 / 3)) rfl rfl rfl⟩

/-- C9: a run that takes the fallback path issues exactly the primary and
the fallback query, and both carry the same strict cloud-cover bound, the
default ceiling of 50, since both call sites omit the parameter. -/
theorem fallback_cloud_ceiling (env : PipelineEnv) (g s e o : String)
    (h1 : env.search (searchQueryOf collectionId (env.bounds g) s e
      defaultCloudCover) = []) :
    (mainRun env g s e o).queries =
      [searchQueryOf collectionId (env.bounds g) s e defaultCloudCover,
       searchQueryOf collectionId (env.bounds g) fallbackStartDate env.today
         defaultCloudCover]
    ∧ (∀ q ∈ (mainRun env g s e o).queries, q.cloudQuery = ("lt", defaultCloudCover))
    ∧ defaultCloudCover = 50 := by
  have hq : (mainRun env g s e o).queries =
      [searchQueryOf collectionId (env.bounds g) s e defaultCloudCover,
       searchQueryOf collectionId (env.bounds g) fallbackStartDate env.today
         defaultCloudCover] := by
    by_cases h2 : env.search (searchQueryOf collectionId (env.bounds g)
        fallbackStartDate env.today defaultCloudCover) = []
    · simp [mainRun, load_and_search_data, List.isEmpty_iff, h1, h2]
    · simp [mainRun, load_and_search_data, List.isEmpty_iff, h1, h2]
  refine ⟨hq, ?_, rfl⟩
  intro q hqmem
  rw [hq] at hqmem
  rcases List.mem_cons.mp hqmem with hq1 | hq2
  · rw [hq1]
    rfl
  · rcases List.mem_cons.mp hq2 with hq2 | hq3
    · rw [hq2]
      rfl
    · exact absurd hq3 (List.not_mem_nil q)

/-- Witness for C9 at the always-empty catalog environment. -/
theorem fallback_cloud_ceiling_witness :
    cexEnv.search (searchQueryOf collectionId (cexEnv.bounds "farm.geojson")
      "2024-07-16" "2024-08-02" defaultCloudCover) = []
    ∧ ((mainRun cexEnv "farm.geojson" "2024-07-16" "2024-08-02" "out").queries =
        [searchQueryOf collectionId (cexEnv.bounds "farm.geojson") "2024-07-16"
          "2024-08-02" defaultCloudCover,
         searchQueryOf collectionId (cexEnv.bounds "farm.geojson") fallbackStartDate
          cexEnv.today defaultCloudCover]
      ∧ (∀ q ∈ (mainRun cexEnv "farm.geojson" "2024-07-16" "2024-08-02" "out").queries,
          q.cloudQuery = ("lt", defaultCloudCover))
      ∧ defaultCloudCover = 50) :=
  ⟨rfl, fallback_cloud_ceiling cexEnv "farm.geojson" "2024-07-16" "2024-08-02"
    "out" rfl⟩

/-- Every file path the scene loop writes is the date-named output file of
one of its items. -/
theorem processItems_saved_subset (env : PipelineEnv) (o : String) :
    ∀ items : List Item, ∀ p ∈ (processItems env o items).2,
      p ∈ items.map (fun it => outputFile o (itemDate it)) := by
  intro items
  induction items with
  | nil =>
    intro p hp
    simp [processItems] at hp
  | cons it rest ih =>
    intro p hp
    rcases hcalc : env.calcNdmi it with e | a
    · rw [processItems_cons_err env o it rest e hcalc] at hp
      exact List.mem_cons_of_mem _ (ih p hp)
    · rw [processItems_cons_ok env o it rest a hcalc] at hp
      rcases List.mem_cons.mp hp with hp1 | hp2
      · rw [hp1]
        exact List.mem_cons_self _ _
      · exact List.mem_cons_of_mem _ (ih p hp2)

/-- The scene loop writes at most one distinct file path per distinct date
label among its items. -/
theorem processItems_saved_card_le (env : PipelineEnv) (o : String)
    (items : List Item) :
    ((processItems env o items).2).toFinset.card ≤
      (items.map itemDate).toFinset.card := by
  classical
  have hsub : ((processItems env o items).2).toFinset ⊆
      (items.map (fun it => outputFile o (itemDate it))).toFinset := by
    intro p hp
    rw [List.mem_toFinset] at hp ⊢
    exact processItems_saved_subset env o items p hp
  have himg : (items.map (fun it => outputFile o (itemDate it))).toFinset =
      (items.map itemDate).toFinset.image (outputFile o) := by
    ext b
    simp
  calc ((processItems env o items).2).toFinset.card
      ≤ (items.map (fun it => outputFile o (itemDate it))).toFinset.card :=
        Finset.card_le_card hsub
    _ = ((items.map itemDate).toFinset.image (outputFile o)).card := by rw [himg]
    _ ≤ (items.map itemDate).toFinset.card := Finset.card_image_le

/-- C10: the written file path depends only on the date label: two
successfully processed scenes with equal date labels, whatever their ids,
are written to the identical path, the later write landing on the file of
the earlier one, and any run writes at most one distinct file path per
distinct date label. -/
theorem date_determined_filename (env : PipelineEnv) (o : String)
    (i1 i2 : Item) (a1 a2 : NdmiArray)
    (hd : itemDate i1 = itemDate i2)
    (h1 : env.calcNdmi i1 = Except.ok a1)
    (h2 : env.calcNdmi i2 = Except.ok a2) :
    (processItems env o [i1, i2]).2 =
      [outputFile o (itemDate i1), outputFile o (itemDate i1)]
    ∧ ∀ items : List Item,
        ((processItems env o items).2).toFinset.card ≤
          (items.map itemDate).toFinset.card := by
  constructor
  · simp [processItems, h1, h2, hd]
  · intro items
    exact processItems_saved_card_le env o items

/-- A second concrete item with a different id but the same acquisition
date as the fixture item. -/
def wItemSameDate : Item :=
  ⟨"S2B_43PFS_20240720", [("swir16", "s2.tif"), ("nir08", "n2.tif")],
   "2024-07-20T11:00:00Z"⟩

/-- A concrete environment where every scene succeeds. -/
def allOkEnv : PipelineEnv :=
  ⟨fun _ => [wItem, wItemSameDate], "2025-10-12", fun _ => (0, 0, 1, 1),
   fun _ => Except.ok (constGrid 2 2 (1 / 3))⟩

/-- Witness for C10 at two same-date scenes with different ids. -/
theorem date_determined_filename_witness :
    (itemDate wItem = itemDate wItemSameDate
      ∧ allOkEnv.calcNdmi wItem = Except.ok (constGrid 2 2 (1 / 3))
      ∧ allOkEnv.calcNdmi wItemSameDate = Except.ok (constGrid 2 2 (1 / 3)))
    ∧ ((processItems allOkEnv "out" [wItem, wItemSameDate]).2 =
        [outputFile "out" (itemDate wItem), outputFile "out" (itemDate wItem)]
      ∧ ∀ items : List Item,
          ((processItems allOkEnv "out" items).2).toFinset.card ≤
            (items.map itemDate).toFinset.card) :=
  ⟨⟨by decide, rfl, rfl⟩,
   date_determined_filename allOkEnv "out" wItem wItemSameDate
     (constGrid 2 2 (1 / 3)) (constGrid 2 2 (1 / 3)) (by decide) rfl rfl⟩

/-- C6 counterexample: with no config file and all four discrete options
supplied, the entry point of `src/ndmi_calculator.py` resolves to the
hardcoded defaults, not to the supplied discrete values. -/
theorem discrete_args_ignored :
    resolveRunConfig (fun _ => ⟨none, none, none, none⟩)
      ⟨none, some "parcel.geojson", some "2023-01-01", some "2023-02-01",
       some "runs"⟩ =
      (some defaultGeojsonPath, some defaultStartDate, some defaultEndDate,
       some defaultOutputPath)
    ∧ (resolveRunConfig (fun _ => ⟨none, none, none, none⟩)
        ⟨none, some "parcel.geojson", some "2023-01-01", some "2023-02-01",
         some "runs"⟩).1 ≠ some "parcel.geojson" := by
  constructor
  · rfl
  · decide

/-- C6 amended: the entry point of `src/ndmi_calculator.py` reads the four
values from the config file when one is given and otherwise falls back to
the hardcoded defaults, the discrete options playing no part; the entry
point of `src/NDMI.py` takes the four values as positional arguments and
they determine the run, its single query being built from them. -/
theorem config_resolution (readConfig : String → ConfigFile)
    (gp sd ed op : Option String) (pth : String)
    (env : PipelineEnv) (g s e o : String) :
    resolveRunConfig readConfig ⟨some pth, gp, sd, ed, op⟩ =
      ((readConfig pth).geojson_path, (readConfig pth).start_date,
       (readConfig pth).end_date, (readConfig pth).output_path)
    ∧ resolveRunConfig readConfig ⟨none, gp, sd, ed, op⟩ =
      (some defaultGeojsonPath, some defaultStartDate, some defaultEndDate,
       some defaultOutputPath)
    ∧ (NDMI_mainRun env g s e o).queries =
      [searchQueryOf collectionId (env.bounds g) s e defaultCloudCover] := by
  refine ⟨rfl, rfl, ?_⟩
  by_cases h : env.search (searchQueryOf collectionId (env.bounds g) s e
      defaultCloudCover) = []
  · simp [NDMI_mainRun, load_and_search_data, List.isEmpty_iff, h]
  · simp [NDMI_mainRun, load_and_search_data, List.isEmpty_iff, h]

/-- Appending a row of masked pixels never changes the NaN-skipping mean. -/
theorem filterMap_id_replicate_none {α : Type} (k : Nat) :
    List.filterMap id (List.replicate k (none : Option α)) = [] := by
  induction k with
  | zero => rfl
  | succ n ih => simp [List.replicate_succ, ih]

/-- C8 counterexample: the `plot_and_save_ndmi` variant of `src/NDMI.py`,
one of the two cited code locations, writes its single file at the given
output path itself, which is not the date-named path the claim requires
for the date label of a concrete processed scene. -/
theorem no_date_named_file_in_NDMI_plot :
    (NDMI_plot_and_save (constGrid 2 2 (1 / 3)) "Output").saves = ["Output"]
    ∧ itemDate wItem = "2024-07-20"
    ∧ "Output" ≠ outputFile "Output" (itemDate wItem) := by
  refine ⟨rfl, by decide, by decide⟩

/-- C8 amended: the `plot_and_save_ndmi` of `src/ndmi_calculator.py`
computes the mean NDMI ignoring the not-a-number pixels, a mean that
depends only on the finite pixel values, in particular unchanged under
adding a row of masked pixels, and writes exactly one file, at the
date-named path inside the output directory; the variant of `src/NDMI.py`
computes no mean and writes its one file at the given output path itself. -/
theorem render_persist_behavior (g g2 : NdmiArray) (o d : String) (k : Nat)
    (hfin : g.flatten.filterMap id = g2.flatten.filterMap id) :
    (plot_and_save_ndmi g o d).saves = [outputFile o d]
    ∧ (plot_and_save_ndmi g o d).saves.length = 1
    ∧ (plot_and_save_ndmi g o d).meanValue = nanmeanGrid g
    ∧ (plot_and_save_ndmi g o d).vmin = -1 ∧ (plot_and_save_ndmi g o d).vmax = 1
    ∧ nanmeanGrid g = nanmeanGrid g2
    ∧ nanmeanGrid (g ++ [List.replicate k none]) = nanmeanGrid g
    ∧ (NDMI_plot_and_save g o).saves = [o] := by
  refine ⟨rfl, rfl, rfl, rfl, rfl, ?_, ?_, rfl⟩
  · simp [nanmeanGrid, hfin]
  · have key : (g ++ [List.replicate k (none : Pixel)]).flatten.filterMap id =
        g.flatten.filterMap id := by
      rw [List.flatten_append, List.filterMap_append]
      simp [filterMap_id_replicate_none]
    simp [nanmeanGrid, key]

/-- Witness for C8: a grid with two masked pixels among the finite values
1 and 0 has the same NaN-skipping mean as the grid of its finite pixels
alone, and the per-date file is written exactly once. -/
theorem render_persist_behavior_witness :
    ([[some 1, none], [none, some 0]] : NdmiArray).flatten.filterMap id =
      ([[some 1], [some 0]] : NdmiArray).flatten.filterMap id
    ∧ ((plot_and_save_ndmi [[some 1, none], [none, some 0]] "out" "2024-07-20").saves =
        [outputFile "out" "2024-07-20"]
      ∧ (plot_and_save_ndmi [[some 1, none], [none, some 0]] "out"
          "2024-07-20").saves.length = 1
      ∧ (plot_and_save_ndmi [[some 1, none], [none, some 0]] "out"
          "2024-07-20").meanValue = nanmeanGrid [[some 1, none], [none, some 0]]
      ∧ (plot_and_save_ndmi [[some 1, none], [none, some 0]] "out"
          "2024-07-20").vmin = -1
      ∧ (plot_and_save_ndmi [[some 1, none], [none, some 0]] "out"
          "2024-07-20").vmax = 1
      ∧ nanmeanGrid [[some 1, none], [none, some 0]] = nanmeanGrid [[some 1], [some 0]]
      ∧ nanmeanGrid ([[some 1, none], [none, some 0]] ++ [List.replicate 3 none]) =
          nanmeanGrid [[some 1, none], [none, some 0]]
      ∧ (NDMI_plot_and_save [[some 1, none], [none, some 0]] "out").saves = ["out"]) :=
  ⟨rfl, render_persist_behavior [[some 1, none], [none, some 0]] [[some 1], [some 0]]
    "out" "2024-07-20" 3 rfl⟩

end NDMICalc
